import Mathlib

/-!
Formal model of the Honeypot fraud-engagement pipeline.

This file embeds the decision-making core of the repository — the
multi-layer scam classifier (`scam_detector.py` together with the
fusion helper in `utils.py` and the oracle wrapper in
`llm_interface.py`), the engagement strategy engine
(`strategy_engine.py`) and the identifier extraction engine
(`entity_extractor.py`) — as executable Lean definitions, and proves
the specified properties about them.

Modelling conventions:
* Python strings are Lean `String`s, but all manipulation is done on
  `List Char` (the underlying data), because the byte-position based
  core `String` functions do not reduce inside the kernel.
* Python floats are modelled as `ℚ`; every score in the source is a
  small decimal literal, so the arithmetic is exact.
* Python regular expressions are translated, one by one, into a small
  backtracking matcher (`Matcher` below) whose alternation order and
  greediness mirror the Python `re` engine; `re.finditer`/`re.findall`
  are modelled by `findAll`, which scans left to right and takes, at
  each position, the first match in backtracking order.
* The external LLM oracle is modelled by the sum type `OracleOutcome`,
  covering the three branches of `LLMInterface.detect_scam`: transport
  failure, successfully parsed JSON payload, and unparseable payload.
-/

/-! ## Character and list-of-character helpers -/

/-- ASCII whitespace, matching Python's `\s` (and `str.strip`/`split`)
on the ASCII plane: space, tab, newline, carriage return, vertical tab
and form feed. -/
def isPySpace (c : Char) : Bool :=
  c = ' ' || c = '\t' || c = '\n' || c = '\r' || c = '\x0b' || c = '\x0c'

/-- A word character for `\b` boundaries: `[a-zA-Z0-9_]`. -/
def isWordChar (c : Char) : Bool := c.isAlphanum || c = '_'

/-- Lower-case a character sequence (Python `str.lower` on ASCII). -/
def lowerL (l : List Char) : List Char := l.map Char.toLower

/-- Substring containment: Python's `sub in s`. -/
def isSubstring (l sub : List Char) : Bool :=
  match l with
  | [] => sub.isEmpty
  | _ :: rest => sub.isPrefixOf l || isSubstring rest sub

/-! ## A small backtracking regex engine

A matcher state is a zipper `(pre, suf)`: `pre` is the reversed list of
all characters to the left of the current point (including text before
the start of the attempted match, so that `\b` can look backwards), and
`suf` is the remaining input.  A `Matcher` returns the list of possible
successor states in the backtracking order of the Python `re` engine:
alternatives left to right, greedy quantifiers longest first.  The
preferred (first) overall success is therefore the match `re` returns.
-/

/-- Matcher state: reversed consumed text, remaining text. -/
abbrev RxState := List Char × List Char

/-- A nondeterministic matcher, successor states in preference order. -/
abbrev Matcher := RxState → List RxState

/-- Match a single character satisfying `p` (a character class). -/
def mtok (p : Char → Bool) : Matcher := fun st =>
  match st with
  | (pre, c :: rest) => if p c then [(c :: pre, rest)] else []
  | (_, []) => []

/-- Sequencing of two matchers. -/
def mseq (a b : Matcher) : Matcher := fun st => (a st).flatMap b

/-- Alternation `x|y`, preferring the left branch as `re` does. -/
def malt (a b : Matcher) : Matcher := fun st => a st ++ b st

/-- Greedy option `x?`: try consuming first, as `re` does. -/
def mopt (a : Matcher) : Matcher := fun st => a st ++ [st]

/-- The empty matcher (matches nothing, always succeeds). -/
def meps : Matcher := fun st => [st]

/-- Helper for `mstar`: all stop points, longest first. -/
def mstarAux (p : Char → Bool) : List Char → List Char → List RxState
  | pre, [] => [(pre, [])]
  | pre, c :: suf =>
    if p c then mstarAux p (c :: pre) suf ++ [(pre, c :: suf)]
    else [(pre, c :: suf)]

/-- Greedy Kleene star `[class]*`, longest first. -/
def mstar (p : Char → Bool) : Matcher := fun st => mstarAux p st.1 st.2

/-- Greedy plus `[class]+`. -/
def mplus (p : Char → Bool) : Matcher := mseq (mtok p) (mstar p)

/-- Exactly `n` repetitions of a matcher. -/
def mrep (a : Matcher) : Nat → Matcher
  | 0 => meps
  | n + 1 => mseq a (mrep a n)

/-- At most `n` repetitions, greedy (more repetitions preferred). -/
def mupto (a : Matcher) : Nat → Matcher
  | 0 => meps
  | n + 1 => fun st => (a st).flatMap (mupto a n) ++ [st]

/-- Range repetition `x{lo,hi}`, greedy. -/
def mrange (a : Matcher) (lo hi : Nat) : Matcher :=
  mseq (mrep a lo) (mupto a (hi - lo))

/-- Word boundary `\b`: exactly one side is a word character. -/
def mbound : Matcher := fun st =>
  let left := match st.1 with | c :: _ => isWordChar c | [] => false
  let right := match st.2 with | c :: _ => isWordChar c | [] => false
  if left ≠ right then [st] else []

/-- A literal character sequence (case-sensitive). -/
def mlit : List Char → Matcher
  | [] => meps
  | c :: cs => mseq (mtok (· = c)) (mlit cs)

/-- A literal character sequence under `re.IGNORECASE`. -/
def mlitCI : List Char → Matcher
  | [] => meps
  | c :: cs => mseq (mtok (fun d => d.toLower = c.toLower)) (mlitCI cs)

/-- One scanning step of `re.finditer`: fuelled so that termination is
structural; the fuel `|input| + 1` is always sufficient because every
step consumes at least one character.  At each position the first
successful state in backtracking order is taken (as `re` does), the
matched text `(start, chars)` is emitted, and scanning resumes after
it.  A zero-width success falls through to a plain one-character step;
none of the patterns in this development can match the empty string. -/
def findAllAux (m : Matcher) : Nat → List Char → List Char → List (Nat × List Char)
  | 0, _, _ => []
  | _ + 1, _, [] => []
  | fuel + 1, pre, c :: suf =>
    match (m (pre, c :: suf)).head? with
    | some (pre2, suf2) =>
      let k := pre2.length - pre.length
      if k = 0 then findAllAux m fuel (c :: pre) suf
      else (pre.length, (pre2.take k).reverse) :: findAllAux m fuel pre2 suf2
    | none => findAllAux m fuel (c :: pre) suf

/-- All non-overlapping matches of a pattern in a string, left to
right, with their start offsets: `re.finditer` (and, for the group-free
patterns in this development, `re.findall`). -/
def findAllPos (m : Matcher) (s : String) : List (Nat × List Char) :=
  findAllAux m (s.toList.length + 1) [] s.toList

/-- The matched substrings only: `re.findall` for group-free patterns. -/
def findAllStr (m : Matcher) (s : String) : List String :=
  (findAllPos m s).map (fun x => String.mk x.2)

/-- Existence of a match: `re.search` as a Boolean. -/
def reSearch (m : Matcher) (s : String) : Bool := !(findAllPos m s).isEmpty

/-! ## Configuration (`config.py`)

Only the fields consumed by the modelled components are embedded.  The
keyword/pattern/llm weights are plain rationals; `Config.__init__`
never overrides their dataclass defaults 0.3/0.3/0.4. -/

/-- `ScamDetectionConfig` from `config.py`. -/
structure ScamDetectionConfig where
  confidence_threshold : ℚ
  keyword_weight : ℚ
  pattern_weight : ℚ
  llm_weight : ℚ
  enable_whitelist : Bool

/-- The default scam-detection configuration (no environment
overrides): threshold 0.85, weights 0.3/0.3/0.4, whitelist on. -/
def defaultScamConfig : ScamDetectionConfig :=
  ⟨85/100, 3/10, 3/10, 4/10, true⟩

/-- The weight-sum check from `Config.validate`:
`abs(weight_sum - 1.0) > 0.01` rejects, so a configuration passes iff
`|keyword + pattern + llm - 1| ≤ 1/100`. -/
def weightsPassValidation (cfg : ScamDetectionConfig) : Prop :=
  |cfg.keyword_weight + cfg.pattern_weight + cfg.llm_weight - 1| ≤ 1/100

/-- `EngagementLimits` from `config.py` (all `int`-valued). -/
structure EngagementLimits where
  max_messages : Int
  max_duration_minutes : Int
  min_entities_for_stop : Int
  max_repetitions : Int

/-- Default engagement limits: 15 messages, 30 minutes, 3 entities,
3 repetitions. -/
def defaultEngagement : EngagementLimits := ⟨15, 30, 3, 3⟩

/-! ## Scam types and keyword layer (`scam_detector.py`, Layer 1) -/

/-- The `ScamType` enumeration. -/
inductive ScamType
  | JOB_SCAM | INVESTMENT_SCAM | BANKING_FRAUD | ROMANCE_SCAM
  | PRIZE_LOTTERY | TECH_SUPPORT | IMPERSONATION | UNKNOWN | NOT_SCAM
deriving DecidableEq, Repr

/-- The string value of each `ScamType` member. -/
def ScamType.value : ScamType → String
  | .JOB_SCAM => "job_scam"
  | .INVESTMENT_SCAM => "investment_scam"
  | .BANKING_FRAUD => "banking_fraud"
  | .ROMANCE_SCAM => "romance_scam"
  | .PRIZE_LOTTERY => "prize_lottery"
  | .TECH_SUPPORT => "tech_support"
  | .IMPERSONATION => "impersonation"
  | .UNKNOWN => "unknown"
  | .NOT_SCAM => "not_scam"

/-- The `ScamType(...)` constructor on a string: `some` member whose
value matches, else `none` (Python raises `ValueError`, which
`ScamDetector.detect` catches). -/
def scamTypeOfString (s : String) : Option ScamType :=
  [ScamType.JOB_SCAM, .INVESTMENT_SCAM, .BANKING_FRAUD, .ROMANCE_SCAM,
   .PRIZE_LOTTERY, .TECH_SUPPORT, .IMPERSONATION, .UNKNOWN,
   .NOT_SCAM].find? (fun t => t.value = s)

namespace KeywordDetector

/-- `URGENCY_KEYWORDS`. -/
def URGENCY_KEYWORDS : List String :=
  ["urgent", "immediately", "act now", "limited time", "expires today",
   "last chance", "hurry", "quick", "asap", "right now"]

/-- `MONEY_KEYWORDS`.  The third-from-last entry reproduces the three
characters (U+00E2, U+201A, U+00B9) that the source file contains
where a rupee sign was intended. -/
def MONEY_KEYWORDS : List String :=
  ["money", "cash", "payment", "transfer", "deposit", "account",
   "bank", "upi", "paytm", "gpay", "phonepe", "wallet",
   "â‚¹", "$",
   "lakh", "crore", "thousand", "investment", "profit", "earn"]

/-- `THREAT_KEYWORDS`. -/
def THREAT_KEYWORDS : List String :=
  ["blocked", "suspended", "deactivated", "frozen", "locked",
   "arrest", "legal action", "police", "court", "fine", "penalty",
   "unauthorized", "suspicious activity", "security alert"]

/-- `REQUEST_KEYWORDS`. -/
def REQUEST_KEYWORDS : List String :=
  ["send", "provide", "share", "verify", "confirm", "update",
   "click", "download", "install", "enter", "submit", "reply"]

/-- `PRIZE_KEYWORDS`. -/
def PRIZE_KEYWORDS : List String :=
  ["won", "winner", "prize", "lottery", "lucky", "selected",
   "congratulations", "reward", "gift", "free", "bonus"]

/-- `JOB_KEYWORDS`. -/
def JOB_KEYWORDS : List String :=
  ["job", "work from home", "part time", "earn money", "hiring",
   "opportunity", "registration fee", "training fee", "joining fee"]

/-- `sum(1 for kw in KEYWORDS if kw in message_lower)`: the number of
keywords of a family occurring in the lower-cased message. -/
def countHits (kws : List String) (messageLower : List Char) : Nat :=
  kws.countP (fun kw => isSubstring messageLower kw.toList)

/-- The whitelist pattern `r'-[A-Z]{6}$'` under `re.IGNORECASE`
("standard bank message IDs"): the sender ends with a dash followed by
six ASCII letters. -/
def matchesBankIdSuffix (sender : String) : Bool :=
  match sender.toList.reverse with
  | a :: b :: c :: d :: e :: f :: g :: _ =>
    a.isAlpha && b.isAlpha && c.isAlpha && d.isAlpha && e.isAlpha &&
    f.isAlpha && g = '-'
  | _ => false

/-- The four domain whitelist patterns `r'@amazon\.com$'` etc., each an
end-anchored literal under `re.IGNORECASE`. -/
def LEGITIMATE_DOMAIN_SUFFIXES : List String :=
  ["@amazon.com", "@google.com", "@microsoft.com", "@linkedin.com"]

/-- `any` of the five `LEGITIMATE_PATTERNS` matching the sender. -/
def matchesWhitelistPattern (sender : String) : Bool :=
  LEGITIMATE_DOMAIN_SUFFIXES.any
      (fun p => p.toList.isSuffixOf (lowerL sender.toList))
    || matchesBankIdSuffix sender

/-- The guard of the whitelist short-circuit in
`KeywordDetector.detect`: `sender` is present and non-empty (Python
truthiness), the whitelist is enabled, and some pattern matches. -/
def whitelistHit (cfg : ScamDetectionConfig) (sender : Option String) : Bool :=
  match sender with
  | some s => decide (s ≠ "") && cfg.enable_whitelist && matchesWhitelistPattern s
  | none => false

/-- The dictionary returned by `KeywordDetector.detect`. -/
structure KeywordResult where
  score : ℚ
  scam_type : ScamType
  indicators : List String
deriving DecidableEq, Repr

/-- `KeywordDetector.detect`: whitelist short-circuit, six keyword
family counts on the lower-cased message, keyword-driven scam type
(fixed priority), then the density score with the urgency+money/threat
override. -/
def detect (cfg : ScamDetectionConfig) (message : String)
    (sender : Option String) : KeywordResult :=
  if whitelistHit cfg sender then
    { score := 0, scam_type := .NOT_SCAM, indicators := ["whitelisted_sender"] }
  else
    let ml := lowerL message.toList
    let urgency_count := countHits URGENCY_KEYWORDS ml
    let money_count := countHits MONEY_KEYWORDS ml
    let threat_count := countHits THREAT_KEYWORDS ml
    let request_count := countHits REQUEST_KEYWORDS ml
    let prize_count := countHits PRIZE_KEYWORDS ml
    let job_count := countHits JOB_KEYWORDS ml
    let typed : ScamType × List String :=
      if prize_count ≥ 2 then (.PRIZE_LOTTERY, ["prize_keywords"])
      else if job_count ≥ 2 ∧ money_count ≥ 1 then (.JOB_SCAM, ["job_keywords"])
      else if threat_count ≥ 2 then (.BANKING_FRAUD, ["threat_keywords"])
      else if money_count ≥ 3 then (.INVESTMENT_SCAM, ["money_keywords"])
      else (.UNKNOWN, [])
    let total_keywords := urgency_count + money_count + threat_count +
      request_count + prize_count + job_count
    let scored : ℚ × List String :=
      if urgency_count ≥ 2 ∧ (money_count ≥ 2 ∨ threat_count ≥ 2) then
        (8/10, ["urgency_with_money_or_threat"])
      else if total_keywords ≥ 5 then (7/10, ["high_keyword_density"])
      else if total_keywords ≥ 3 then (5/10, ["moderate_keyword_density"])
      else if total_keywords ≥ 1 then (3/10, [])
      else (0, [])
    { score := min scored.1 1
      scam_type := typed.1
      indicators := typed.2 ++ scored.2 }

end KeywordDetector

/-! ## Pattern layer (`scam_detector.py`, Layer 2)

`PatternDetector` compiles its regexes without `re.IGNORECASE`, so the
literal parts below are case-sensitive. -/

namespace PatternDetector

/-- Character class `[-.\s]` used as separator in the phone pattern. -/
def sepClass (c : Char) : Bool := c = '-' || c = '.' || isPySpace c

/-- `PHONE_PATTERN = r'\+?\d{1,3}[-.\s]?\(?\d{3}\)?[-.\s]?\d{3}[-.\s]?\d{4}'`. -/
def PHONE_PATTERN : Matcher :=
  mseq (mopt (mtok (· = '+')))
    (mseq (mrange (mtok Char.isDigit) 1 3)
      (mseq (mopt (mtok sepClass))
        (mseq (mopt (mtok (· = '(')))
          (mseq (mrep (mtok Char.isDigit) 3)
            (mseq (mopt (mtok (· = ')')))
              (mseq (mopt (mtok sepClass))
                (mseq (mrep (mtok Char.isDigit) 3)
                  (mseq (mopt (mtok sepClass))
                    (mrep (mtok Char.isDigit) 4)))))))))

/-- `BANK_ACCOUNT_PATTERN = r'\b\d{9,18}\b'`. -/
def BANK_ACCOUNT_PATTERN : Matcher :=
  mseq mbound (mseq (mrange (mtok Char.isDigit) 9 18) mbound)

/-- Character class `[a-zA-Z0-9._-]` (the UPI local part). -/
def upiLocalClass (c : Char) : Bool :=
  c.isAlphanum || c = '.' || c = '_' || c = '-'

/-- Character class `[a-zA-Z0-9.-]` (the UPI provider part). -/
def upiProviderClass (c : Char) : Bool := c.isAlphanum || c = '.' || c = '-'

/-- `UPI_PATTERN = r'[a-zA-Z0-9._-]+@[a-zA-Z0-9.-]+'` (no word
boundaries in this layer's variant). -/
def UPI_PATTERN : Matcher :=
  mseq (mplus upiLocalClass) (mseq (mtok (· = '@')) (mplus upiProviderClass))

/-- `URL_PATTERN = r'https?://[^\s]+|www\.[^\s]+|bit\.ly/[^\s]+|tinyurl\.com/[^\s]+'`. -/
def URL_PATTERN : Matcher :=
  malt
    (mseq (mlit "http".toList)
      (mseq (mopt (mtok (· = 's')))
        (mseq (mlit "://".toList) (mplus (fun c => !isPySpace c)))))
    (malt (mseq (mlit "www.".toList) (mplus (fun c => !isPySpace c)))
      (malt (mseq (mlit "bit.ly/".toList) (mplus (fun c => !isPySpace c)))
        (mseq (mlit "tinyurl.com/".toList) (mplus (fun c => !isPySpace c)))))

/-- `SUSPICIOUS_DOMAINS`. -/
def SUSPICIOUS_DOMAINS : List String :=
  ["bit.ly", "tinyurl.com", "goo.gl", "t.co", ".tk", ".ml", ".ga", ".cf"]

/-- The obfuscation tell `r'\d\s+\d\s+\d'` (digits separated by
whitespace). -/
def OBFUSCATED_PATTERN : Matcher :=
  mseq (mtok Char.isDigit)
    (mseq (mplus isPySpace)
      (mseq (mtok Char.isDigit)
        (mseq (mplus isPySpace) (mtok Char.isDigit))))

/-- `payment_methods` scanned as lower-case substrings. -/
def PAYMENT_METHODS : List String :=
  ["upi", "paytm", "gpay", "phonepe", "bank account", "account number"]

/-- `u.endswith(('.com', '.org', '.net', '.in'))` for the UPI false
positive filter. -/
def upiLooksLikeEmail (u : String) : Bool :=
  [".com", ".org", ".net", ".in"].any (fun d => d.toList.isSuffixOf u.toList)

/-- The dictionary returned by `PatternDetector.detect`. -/
structure PatternResult where
  score : ℚ
  indicators : List String
deriving Repr

/-- The local `phone_matches` list of `PatternDetector.detect`. -/
def phone_matches (message : String) : List String :=
  findAllStr PHONE_PATTERN message

/-- The local `bank_matches` list of `PatternDetector.detect`. -/
def bank_matches (message : String) : List String :=
  findAllStr BANK_ACCOUNT_PATTERN message

/-- The local `upi_matches` list of `PatternDetector.detect`, after
the email false-positive filter. -/
def upi_matches (message : String) : List String :=
  (findAllStr UPI_PATTERN message).filter (fun u => !upiLooksLikeEmail u)

/-- The local `url_matches` list of `PatternDetector.detect`. -/
def url_matches (message : String) : List String :=
  findAllStr URL_PATTERN message

/-- The suspicious-domain scan over `url_matches`. -/
def suspicious_url (message : String) : Bool :=
  (url_matches message).any (fun url =>
    SUSPICIOUS_DOMAINS.any (fun d => isSubstring (lowerL url.toList) d.toList))

/-- The local `payment_count` of `PatternDetector.detect`. -/
def payment_count (message : String) : Nat :=
  PAYMENT_METHODS.countP (fun pm => isSubstring (lowerL message.toList) pm.toList)

/-- The obfuscated-digits check of `PatternDetector.detect`. -/
def obfuscated (message : String) : Bool :=
  reSearch OBFUSCATED_PATTERN message

/-- `PatternDetector.detect`: each structural signal adds its fixed
increment to a running score, which is finally capped at 1.0.  The
sequential `score +=` updates of the source commute, so the score is
written as a sum of guarded increments in source order. -/
def detect (message : String) : PatternResult :=
  let score : ℚ :=
    (if !(phone_matches message).isEmpty then 2/10 else 0) +
    (if !(bank_matches message).isEmpty then 3/10 else 0) +
    (if !(upi_matches message).isEmpty then 3/10 else 0) +
    (if !(url_matches message).isEmpty then 1/10 else 0) +
    (if !(url_matches message).isEmpty && suspicious_url message then 3/10 else 0) +
    (if payment_count message ≥ 2 then 2/10 else 0) +
    (if obfuscated message then 2/10 else 0)
  let indicators :=
    (if !(phone_matches message).isEmpty then
      ["phone_numbers:" ++ toString (phone_matches message).length] else []) ++
    (if !(bank_matches message).isEmpty then
      ["bank_accounts:" ++ toString (bank_matches message).length] else []) ++
    (if !(upi_matches message).isEmpty then
      ["upi_ids:" ++ toString (upi_matches message).length] else []) ++
    (if !(url_matches message).isEmpty then
      ["urls:" ++ toString (url_matches message).length] else []) ++
    (if !(url_matches message).isEmpty && suspicious_url message then
      ["suspicious_url"] else []) ++
    (if payment_count message ≥ 2 then ["multiple_payment_methods"] else []) ++
    (if obfuscated message then ["obfuscated_numbers"] else [])
  { score := min score 1, indicators := indicators }

end PatternDetector

/-! ## Score fusion (`utils.calculate_weighted_score`) -/

/-- Dictionary lookup `scores.get(key, 0.0)`. -/
def lookupScore (scores : List (String × ℚ)) (key : String) : ℚ :=
  ((scores.find? (fun p => p.1 = key)).map Prod.snd).getD 0

/-- `calculate_weighted_score(scores, weights)` from `utils.py`:
`sum(scores.get(k, 0) * w for k, w in weights) / sum(weights.values())`,
returning 0 on empty inputs or a non-positive total weight. -/
def calculate_weighted_score (scores weights : List (String × ℚ)) : ℚ :=
  if scores.isEmpty || weights.isEmpty then 0
  else
    let total_score := (weights.map (fun kw => lookupScore scores kw.1 * kw.2)).sum
    let total_weight := (weights.map Prod.snd).sum
    if total_weight > 0 then total_score / total_weight else 0

/-! ## The semantic oracle (`llm_interface.LLMInterface.detect_scam`) -/

/-- The payload dictionary consumed by `ScamDetector.detect`; each key
may be absent (`.get` defaults apply). -/
structure LLMScamPayload where
  is_scam : Option Bool
  confidence : Option ℚ
  scam_type : Option String
  reasoning : Option String

/-- The three outcomes of the oracle round trip inside
`LLMInterface.detect_scam`: the generate call reported failure, the
response content parsed as JSON, or it did not parse. -/
inductive OracleOutcome
  | failure
  | parsed (d : LLMScamPayload)
  | unparseable (content : String)

namespace LLMInterface

/-- `LLMInterface.detect_scam`: on failure the conservative dictionary
`{is_scam: False, confidence: 0.0, scam_type: "unknown", reasoning:
"LLM analysis failed"}`; on parse success the payload itself; on parse
failure the heuristic fallback keyed on `"scam" in content.lower()`
with confidence 0.5. -/
def detect_scam : OracleOutcome → LLMScamPayload
  | .failure =>
    { is_scam := some false, confidence := some 0,
      scam_type := some "unknown", reasoning := some "LLM analysis failed" }
  | .parsed d => d
  | .unparseable content =>
    { is_scam := some (isSubstring (lowerL content.toList) "scam".toList),
      confidence := some (5/10), scam_type := some "unknown",
      reasoning := some content }

end LLMInterface

/-! ## The fused classifier (`ScamDetector.detect`) -/

/-- Python `", ".join` / `" | ".join`. -/
def joinSep (sep : String) : List String → String
  | [] => ""
  | [a] => a
  | a :: rest => a ++ sep ++ joinSep sep rest

/-- `ScamDetectionResult` from `scam_detector.py`. -/
structure ScamDetectionResult where
  is_scam : Bool
  confidence : ℚ
  scam_type : ScamType
  reasoning : String
  layer_scores : List (String × ℚ)

namespace ScamDetector

/-- The semantic layer's contribution inside `ScamDetector.detect`:
`llm_result.get("confidence", 0.0) if llm_result.get("is_scam", False)
else 0.0`. -/
def llm_score (oracle : OracleOutcome) : ℚ :=
  let llm_result := LLMInterface.detect_scam oracle
  if llm_result.is_scam.getD false then llm_result.confidence.getD 0 else 0

/-- `ScamDetector.detect`: runs the keyword and pattern layers, takes
the oracle verdict (score counted only when the oracle says scam),
fuses the three scores with the configured weights, thresholds the
result, resolves the scam type (keyword type first, then a parseable
oracle type, then unknown/not-scam by verdict) and assembles the
reasoning text. -/
def detect (cfg : ScamDetectionConfig) (message : String)
    (sender : Option String) (oracle : OracleOutcome) : ScamDetectionResult :=
  let keyword_result := KeywordDetector.detect cfg message sender
  let keyword_score := keyword_result.score
  let pattern_result := PatternDetector.detect message
  let pattern_score := pattern_result.score
  let llm_result := LLMInterface.detect_scam oracle
  let weights := [("keyword", cfg.keyword_weight),
    ("pattern", cfg.pattern_weight), ("llm", cfg.llm_weight)]
  let scores := [("keyword", keyword_score), ("pattern", pattern_score),
    ("llm", llm_score oracle)]
  let final_confidence := calculate_weighted_score scores weights
  let is_scam := decide (final_confidence ≥ cfg.confidence_threshold)
  let scam_type :=
    if keyword_result.scam_type ≠ ScamType.UNKNOWN then keyword_result.scam_type
    else match llm_result.scam_type with
      | some s =>
        if s = "" then (if is_scam then ScamType.UNKNOWN else .NOT_SCAM)
        else (scamTypeOfString s).getD .UNKNOWN
      | none => if is_scam then ScamType.UNKNOWN else .NOT_SCAM
  let reasoning_parts :=
    (if keyword_result.indicators.isEmpty then []
     else ["Keywords: " ++ joinSep ", " keyword_result.indicators]) ++
    (if pattern_result.indicators.isEmpty then []
     else ["Patterns: " ++ joinSep ", " pattern_result.indicators]) ++
    (match llm_result.reasoning with
     | some r => if r = "" then [] else ["LLM: " ++ r]
     | none => [])
  let reasoning := if reasoning_parts.isEmpty then "No strong indicators"
    else joinSep " | " reasoning_parts
  { is_scam := is_scam, confidence := final_confidence,
    scam_type := scam_type, reasoning := reasoning, layer_scores := scores }

end ScamDetector

/-! ## Data normalization (`utils.DataNormalizer`) -/

/-- Python `str.strip()` (ASCII whitespace). -/
def stripL (l : List Char) : List Char :=
  ((l.dropWhile isPySpace).reverse.dropWhile isPySpace).reverse

/-- Helper for `replaceAllL`, fuelled so that the recursion is
structural (and hence kernel-reducible); fuel `|l|` is sufficient
because every step consumes at least one character of `l` (`pat` is
never empty at call sites). -/
def replaceAllLAux (pat rep : List Char) : Nat → List Char → List Char
  | 0, l => l
  | fuel + 1, l =>
    match l with
    | [] => []
    | c :: rest =>
      if pat.isPrefixOf l then
        rep ++ replaceAllLAux pat rep fuel (l.drop pat.length)
      else c :: replaceAllLAux pat rep fuel rest

/-- Python `str.replace(pat, rep)`: replace every non-overlapping
occurrence, scanning left to right. -/
def replaceAllL (pat rep l : List Char) : List Char :=
  replaceAllLAux pat rep l.length l

namespace DataNormalizer

/-- `normalize_phone`: `re.sub(r'[^\d+]', '', phone)` — drop every
character that is neither a digit nor `+`. -/
def normalize_phone (phone : String) : String :=
  String.mk (phone.toList.filter (fun c => c.isDigit || c = '+'))

/-- `normalize_bank_account`: `re.sub(r'[\s\-]', '', account)`. -/
def normalize_bank_account (account : String) : String :=
  String.mk (account.toList.filter (fun c => !(isPySpace c || c = '-')))

/-- `normalize_upi`: de-obfuscate `(at)`, `[at]`, ` at ` to `@`, then
lower-case and strip. -/
def normalize_upi (upi : String) : String :=
  let u1 := replaceAllL "(at)".toList "@".toList upi.toList
  let u2 := replaceAllL "[at]".toList "@".toList u1
  let u3 := replaceAllL " at ".toList "@".toList u2
  String.mk (stripL (lowerL u3))

/-- `normalize_url`: strip, then prepend `https://` when no scheme is
present. -/
def normalize_url (url : String) : String :=
  let t := stripL url.toList
  if "http://".toList.isPrefixOf t || "https://".toList.isPrefixOf t then
    String.mk t
  else String.mk ("https://".toList ++ t)

/-- First-six-digits strictly-ascending check from `is_likely_fake`:
`all(int(digits[i]) == int(digits[i-1]) + 1 for i in range(1, min(6, len(digits))))`. -/
def isSequentialStart (digits : List Char) : Bool :=
  let six := digits.take 6
  (six.zip (six.drop 1)).all (fun p => p.2.toNat = p.1.toNat + 1)

/-- `is_likely_fake(value, entity_type)`: for `bank_account`/`phone`
(note: the extractor passes `phone_number`, which does not trigger
this branch) sequential or near-constant digit strings are fake; in
all cases a test/dummy keyword or an all-zero/all-nine run makes the
value fake. -/
def is_likely_fake (value : String) (entity_type : String) : Bool :=
  let digitFake :=
    if entity_type = "bank_account" || entity_type = "phone" then
      let digits := value.toList.filter (fun c => c.isDigit)
      (decide (digits.length ≥ 6) && isSequentialStart digits) ||
        decide (digits.eraseDups.length ≤ 2)
    else false
  let keywordFake :=
    ["test", "dummy", "fake", "example", "000000", "999999"].any
      (fun k => isSubstring (lowerL value.toList) k.toList)
  digitFake || keywordFake

end DataNormalizer

/-! ## Identifier extraction (`entity_extractor.py`) -/

/-- The `EntityType` enumeration. -/
inductive EntityType
  | BANK_ACCOUNT | UPI_ID | PHONE_NUMBER | URL | EMAIL | CRYPTO_ADDRESS | NAME
deriving DecidableEq, Repr

/-- The string value of each `EntityType` member. -/
def EntityType.value : EntityType → String
  | .BANK_ACCOUNT => "bank_account"
  | .UPI_ID => "upi_id"
  | .PHONE_NUMBER => "phone_number"
  | .URL => "url"
  | .EMAIL => "email"
  | .CRYPTO_ADDRESS => "crypto_address"
  | .NAME => "name"

/-- The `ConfidenceLevel` enumeration. -/
inductive ConfidenceLevel
  | HIGH | MEDIUM | LOW | NEEDS_VERIFICATION
deriving DecidableEq, Repr

/-- `ExtractedEntity` with its metadata fields. -/
structure ExtractedEntity where
  entity_type : EntityType
  value : String
  normalized_value : String
  confidence : ConfidenceLevel
  context : String
  source_message : String
deriving DecidableEq, Repr

/-- `EntityExtractionConfig` from `config.py` (defaults: both on). -/
structure EntityExtractionConfig where
  enable_normalization : Bool
  enable_url_expansion : Bool

/-- Default entity-extraction configuration. -/
def defaultEntityConfig : EntityExtractionConfig := ⟨true, true⟩

namespace EntityExtractor

/-- Character class `[\s\-]` inside the digit-group patterns. -/
def spaceDash (c : Char) : Bool := isPySpace c || c = '-'

/-- Extractor pattern `r'\b(\d[\s\-]*){9,18}\b'` (bank account 1). -/
def bankPattern1 : Matcher :=
  mseq mbound
    (mseq (mrange (mseq (mtok Char.isDigit) (mstar spaceDash)) 9 18) mbound)

/-- Extractor pattern
`r'account\s*(?:number|no\.?|#)?\s*:?\s*(\d[\s\-]*){9,18}'` (bank
account 2), under `re.IGNORECASE`. -/
def bankPattern2 : Matcher :=
  mseq (mlitCI "account".toList)
    (mseq (mstar isPySpace)
      (mseq (mopt (malt (mlitCI "number".toList)
          (malt (mseq (mlitCI "no".toList) (mopt (mtok (· = '.'))))
            (mlit "#".toList))))
        (mseq (mstar isPySpace)
          (mseq (mopt (mtok (· = ':')))
            (mseq (mstar isPySpace)
              (mrange (mseq (mtok Char.isDigit) (mstar spaceDash)) 9 18))))))

/-- Extractor pattern `r'\b([a-zA-Z0-9._-]+)@([a-zA-Z0-9.-]+)\b'`
(UPI 1). -/
def upiPattern1 : Matcher :=
  mseq mbound
    (mseq (mplus PatternDetector.upiLocalClass)
      (mseq (mtok (· = '@'))
        (mseq (mplus PatternDetector.upiProviderClass) mbound)))

/-- Extractor pattern
`r'\b([a-zA-Z0-9._-]+)\s*(?:\(at\)|\[at\]|at)\s*([a-zA-Z0-9.-]+)\b'`
(UPI 2), under `re.IGNORECASE`. -/
def upiPattern2 : Matcher :=
  mseq mbound
    (mseq (mplus PatternDetector.upiLocalClass)
      (mseq (mstar isPySpace)
        (mseq (malt (mlitCI "(at)".toList)
            (malt (mlitCI "[at]".toList) (mlitCI "at".toList)))
          (mseq (mstar isPySpace)
            (mseq (mplus PatternDetector.upiProviderClass) mbound)))))

/-- Extractor phone pattern 1: textually identical to
`PatternDetector.PHONE_PATTERN` (digits and punctuation only, so
`re.IGNORECASE` is immaterial). -/
def phonePattern1 : Matcher := PatternDetector.PHONE_PATTERN

/-- Extractor pattern `r'\b(\d[\s\-]*){10,15}\b'` (phone 2). -/
def phonePattern2 : Matcher :=
  mseq mbound
    (mseq (mrange (mseq (mtok Char.isDigit) (mstar spaceDash)) 10 15) mbound)

/-- Extractor pattern `r'https?://[^\s]+'`, under `re.IGNORECASE`. -/
def urlPattern1 : Matcher :=
  mseq (mlitCI "http".toList)
    (mseq (mopt (mtok (fun c => c.toLower = 's')))
      (mseq (mlit "://".toList) (mplus (fun c => !isPySpace c))))

/-- Extractor pattern `r'www\.[^\s]+'`. -/
def urlPattern2 : Matcher :=
  mseq (mlitCI "www.".toList) (mplus (fun c => !isPySpace c))

/-- Extractor pattern `r'bit\.ly/[^\s]+'`. -/
def urlPattern3 : Matcher :=
  mseq (mlitCI "bit.ly/".toList) (mplus (fun c => !isPySpace c))

/-- Extractor pattern `r'tinyurl\.com/[^\s]+'`. -/
def urlPattern4 : Matcher :=
  mseq (mlitCI "tinyurl.com/".toList) (mplus (fun c => !isPySpace c))

/-- Character class `[a-zA-Z0-9._%+-]` (email local part). -/
def emailLocalClass (c : Char) : Bool :=
  c.isAlphanum || c = '.' || c = '_' || c = '%' || c = '+' || c = '-'

/-- Extractor pattern
`r'\b[a-zA-Z0-9._%+-]+@[a-zA-Z0-9.-]+\.[a-zA-Z]{2,}\b'` (email). -/
def emailPattern : Matcher :=
  mseq mbound
    (mseq (mplus emailLocalClass)
      (mseq (mtok (· = '@'))
        (mseq (mplus PatternDetector.upiProviderClass)
          (mseq (mtok (· = '.'))
            (mseq (mrep (mtok Char.isAlpha) 2)
              (mseq (mstar Char.isAlpha) mbound))))))

/-- Base character class `[a-km-zA-HJ-NP-Z1-9]` of the Bitcoin
pattern. -/
def btcBase (c : Char) : Bool :=
  ('a' ≤ c && c ≤ 'k') || ('m' ≤ c && c ≤ 'z') ||
  ('A' ≤ c && c ≤ 'H') || ('J' ≤ c && c ≤ 'N') || ('P' ≤ c && c ≤ 'Z') ||
  ('1' ≤ c && c ≤ '9')

/-- The Bitcoin body class under `re.IGNORECASE`: a character matches
if it, or one of its case variants, is in the base class (so every
ASCII letter matches, because each excluded letter's other case lies
in one of the ranges). -/
def btcClassCI (c : Char) : Bool :=
  btcBase c || btcBase c.toLower || btcBase c.toUpper

/-- Extractor pattern `r'\b[13][a-km-zA-HJ-NP-Z1-9]{25,34}\b'`
(Bitcoin). -/
def cryptoPattern1 : Matcher :=
  mseq mbound
    (mseq (mtok (fun c => c = '1' || c = '3'))
      (mseq (mrange (mtok btcClassCI) 25 34) mbound))

/-- Hexadecimal class `[a-fA-F0-9]` (already closed under case). -/
def hexClass (c : Char) : Bool :=
  ('a' ≤ c && c ≤ 'f') || ('A' ≤ c && c ≤ 'F') || c.isDigit

/-- Extractor pattern `r'\b0x[a-fA-F0-9]{40}\b'` (Ethereum), under
`re.IGNORECASE` (so the `x` may be upper case). -/
def cryptoPattern2 : Matcher :=
  mseq mbound
    (mseq (mtok (· = '0'))
      (mseq (mtok (fun c => c.toLower = 'x'))
        (mseq (mrep (mtok hexClass) 40) mbound)))

/-- The `PATTERNS` dictionary, in insertion (iteration) order. -/
def PATTERNS : List (EntityType × List Matcher) :=
  [(.BANK_ACCOUNT, [bankPattern1, bankPattern2]),
   (.UPI_ID, [upiPattern1, upiPattern2]),
   (.PHONE_NUMBER, [phonePattern1, phonePattern2]),
   (.URL, [urlPattern1, urlPattern2, urlPattern3, urlPattern4]),
   (.EMAIL, [emailPattern]),
   (.CRYPTO_ADDRESS, [cryptoPattern1, cryptoPattern2])]

/-- `_is_likely_email`: the raw UPI match ends in a common TLD. -/
def _is_likely_email (value : String) : Bool :=
  [".com", ".org", ".net", ".in", ".co", ".edu", ".gov"].any
    (fun d => d.toList.isSuffixOf (lowerL value.toList))

/-- `_expand_url`.  Modelled from the spec: the body performs an
external HTTP round trip (`requests.head` with redirects), outside the
modelled core; its failure path returns the URL unchanged, and the
model takes that path. -/
def _expand_url (url : String) : String := url

/-- `EntityExtractor._normalize`: dispatch on entity type (with the
URL expansion hook), or plain strip for types without a normalizer. -/
def _normalize (cfg : EntityExtractionConfig) (value : String)
    (entity_type : EntityType) : String :=
  if !cfg.enable_normalization then value
  else match entity_type with
    | .BANK_ACCOUNT => DataNormalizer.normalize_bank_account value
    | .UPI_ID => DataNormalizer.normalize_upi value
    | .PHONE_NUMBER => DataNormalizer.normalize_phone value
    | .URL =>
      let normalized := DataNormalizer.normalize_url value
      if cfg.enable_url_expansion then _expand_url normalized else normalized
    | _ => String.mk (stripL value.toList)

/-- High-confidence provision pattern
`r'(?:my|our)\s+(?:account|upi|number|phone)'`, under `re.IGNORECASE`. -/
def highConfPattern1 : Matcher :=
  mseq (malt (mlitCI "my".toList) (mlitCI "our".toList))
    (mseq (mplus isPySpace)
      (malt (mlitCI "account".toList)
        (malt (mlitCI "upi".toList)
          (malt (mlitCI "number".toList) (mlitCI "phone".toList)))))

/-- High-confidence provision pattern
`r'(?:send|transfer|pay)\s+(?:to|at)'`, under `re.IGNORECASE`. -/
def highConfPattern2 : Matcher :=
  mseq (malt (mlitCI "send".toList)
      (malt (mlitCI "transfer".toList) (mlitCI "pay".toList)))
    (mseq (mplus isPySpace) (malt (mlitCI "to".toList) (mlitCI "at".toList)))

/-- High-confidence provision pattern
`r'(?:use|enter)\s+(?:this|the)'`, under `re.IGNORECASE`. -/
def highConfPattern3 : Matcher :=
  mseq (malt (mlitCI "use".toList) (mlitCI "enter".toList))
    (mseq (mplus isPySpace) (malt (mlitCI "this".toList) (mlitCI "the".toList)))

/-- `EntityExtractor._assess_confidence`: the synthetic victim role is
always `LOW`; then the authenticity heuristic, the explicit-provision
patterns, and `MEDIUM` by default. -/
def _assess_confidence (value : String) (entity_type : EntityType)
    (message : String) (role : String) : ConfidenceLevel :=
  if role = "victim" then .LOW
  else if DataNormalizer.is_likely_fake value entity_type.value then
    .NEEDS_VERIFICATION
  else if [highConfPattern1, highConfPattern2, highConfPattern3].any
      (fun m => reSearch m message) then .HIGH
  else .MEDIUM

/-- `EntityExtractor._get_context`: a ±30 character window around the
match. -/
def _get_context (message : String) (start stop : Nat) : String :=
  let l := message.toList
  let context_start := start - 30
  let context_end := min l.length (stop + 30)
  String.mk ((l.drop context_start).take (context_end - context_start))

/-- The per-call entity list built by the extraction loops of
`EntityExtractor.extract`: for every type, every pattern and every
match (in that nesting order), the raw value, its normalization, the
confidence assessment and the context window — with the UPI matches
that look like emails skipped. -/
def entitiesFromMessage (cfg : EntityExtractionConfig) (message : String)
    (role : String) : List ExtractedEntity :=
  PATTERNS.flatMap (fun tp =>
    tp.2.flatMap (fun pat =>
      (findAllPos pat message).filterMap (fun m =>
        let raw := String.mk m.2
        if tp.1 = EntityType.UPI_ID && _is_likely_email raw then none
        else
          let normalized := _normalize cfg raw tp.1
          some { entity_type := tp.1
                 value := raw
                 normalized_value := normalized
                 confidence := _assess_confidence normalized tp.1 message role
                 context := _get_context message m.1 (m.1 + m.2.length)
                 source_message := message })))

/-- `EntityExtractor._is_duplicate`: an entity with the same type and
normalized value is already in the running list. -/
def _is_duplicate (e : ExtractedEntity) (extracted : List ExtractedEntity) : Bool :=
  extracted.any (fun ex =>
    decide (ex.entity_type = e.entity_type ∧
      ex.normalized_value = e.normalized_value))

/-- One step of the deduplicating append loop at the end of
`extract`. -/
def dedupAppend (extracted : List ExtractedEntity) (e : ExtractedEntity) :
    List ExtractedEntity :=
  if _is_duplicate e extracted then extracted else extracted ++ [e]

/-- `EntityExtractor.extract` as a state transformer on the running
`extracted_entities` list: returns the per-call entity list and the
new running list (per-call list appended entity by entity, skipping
duplicates). -/
def extract (cfg : EntityExtractionConfig) (state : List ExtractedEntity)
    (message : String) (role : String) :
    List ExtractedEntity × List ExtractedEntity :=
  let entities := entitiesFromMessage cfg message role
  (entities, entities.foldl dedupAppend state)

/-- `get_high_value_entities`: confidence `HIGH` or `MEDIUM`. -/
def get_high_value_entities (extracted : List ExtractedEntity) :
    List ExtractedEntity :=
  extracted.filter (fun e =>
    decide (e.confidence = ConfidenceLevel.HIGH ∨
      e.confidence = ConfidenceLevel.MEDIUM))

/-- `get_entity_count`: the number of high-value entities. -/
def get_entity_count (extracted : List ExtractedEntity) : Nat :=
  (get_high_value_entities extracted).length

end EntityExtractor

/-! ## Engagement strategy engine (`strategy_engine.py`) -/

/-- The `StrategyPhase` enumeration. -/
inductive StrategyPhase
  | BUILD_TRUST | EXTRACT_INTEL | DELAY_PROBE | EXIT
deriving DecidableEq, Repr

/-- The `StopReason` enumeration. -/
inductive StopReason
  | MAX_MESSAGES | ENTITIES_EXTRACTED | SCAMMER_SUSPICIOUS | UNPRODUCTIVE
  | TIME_LIMIT | SCAMMER_ENDED | DEMO_MODE | SCAMMER_DISENGAGED
  | AGENT_DISENGAGED
deriving DecidableEq, Repr

/-- `ConversationState` from `strategy_engine.py`.  `start_time` is a
wall-clock timestamp in seconds (`time.time()`), modelled as a
rational. -/
structure ConversationState where
  message_count : Nat
  start_time : ℚ
  current_phase : StrategyPhase
  scammer_repetitions : Nat
  last_scammer_message : String
  suspicion_indicators : List String
deriving Repr

namespace StrategyEngine

/-- `StrategyEngine.should_stop`, with the two implicit inputs made
explicit: the current wall-clock time `now` (seconds) and the
extractor's high-value entity count.  The five guards are evaluated in
source order with short-circuit returns. -/
def should_stop (cfg : EngagementLimits) (st : ConversationState)
    (now : ℚ) (entity_count : Nat) : Bool × Option StopReason :=
  if (st.message_count : ℤ) ≥ cfg.max_messages then
    (true, some .MAX_MESSAGES)
  else if (now - st.start_time) / 60 ≥ (cfg.max_duration_minutes : ℚ) then
    (true, some .TIME_LIMIT)
  else if (entity_count : ℤ) ≥ cfg.min_entities_for_stop then
    (true, some .ENTITIES_EXTRACTED)
  else if st.suspicion_indicators.length ≥ 2 then
    (true, some .SCAMMER_SUSPICIOUS)
  else if (st.scammer_repetitions : ℤ) ≥ cfg.max_repetitions then
    (true, some .UNPRODUCTIVE)
  else (false, none)

/-- `StrategyEngine.determine_phase` as the function of
(messageCount, highValueEntityCount, configured limits) it reads. -/
def determine_phase (cfg : EngagementLimits)
    (message_count entity_count : Nat) : StrategyPhase :=
  if message_count < 3 then .BUILD_TRUST
  else if message_count < 8 ∧ entity_count < 2 then .EXTRACT_INTEL
  else if entity_count ≥ 1 ∧ (message_count : ℤ) < cfg.max_messages - 3 then
    .DELAY_PROBE
  else .EXIT

/-- `SUSPICION_INDICATORS`: each entry pairs the source regex text
(the string appended to the state) with its translation. -/
def SUSPICION_INDICATORS : List (String × Matcher) :=
  [("are you (?:a )?(?:bot|robot|ai)",
    mseq (mlitCI "are you ".toList)
      (mseq (mopt (mlitCI "a ".toList))
        (malt (mlitCI "bot".toList)
          (malt (mlitCI "robot".toList) (mlitCI "ai".toList))))),
   ("are you real", mlitCI "are you real".toList),
   ("send (?:me )?(?:a )?(?:voice|audio|video)",
    mseq (mlitCI "send ".toList)
      (mseq (mopt (mlitCI "me ".toList))
        (mseq (mopt (mlitCI "a ".toList))
          (malt (mlitCI "voice".toList)
            (malt (mlitCI "audio".toList) (mlitCI "video".toList)))))),
   ("call me", mlitCI "call me".toList),
   ("video call", mlitCI "video call".toList),
   ("prove you(?:\\\x27re| are) real",
    mseq (mlitCI "prove you".toList)
      (mseq (malt (mlitCI "\x27re".toList) (mlitCI " are".toList))
        (mlitCI " real".toList))),
   ("show me your (?:face|photo)",
    mseq (mlitCI "show me your ".toList)
      (malt (mlitCI "face".toList) (mlitCI "photo".toList))),
   ("why (?:are you|you\\\x27re) asking so many questions",
    mseq (mlitCI "why ".toList)
      (mseq (malt (mlitCI "are you".toList) (mlitCI "you\x27re".toList))
        (mlitCI " asking so many questions".toList)))]

/-- `UNPRODUCTIVE_INDICATORS`, likewise. -/
def UNPRODUCTIVE_INDICATORS : List (String × Matcher) :=
  [("(?:stop|leave me alone|don\\\x27t (?:contact|message))",
    malt (mlitCI "stop".toList)
      (malt (mlitCI "leave me alone".toList)
        (mseq (mlitCI "don\x27t ".toList)
          (malt (mlitCI "contact".toList) (mlitCI "message".toList))))),
   ("i\\\x27m not interested", mlitCI "i\x27m not interested".toList),
   ("this is (?:a )?scam",
    mseq (mlitCI "this is ".toList)
      (mseq (mopt (mlitCI "a ".toList)) (mlitCI "scam".toList))),
   ("i will (?:report|complain)",
    mseq (mlitCI "i will ".toList)
      (malt (mlitCI "report".toList) (mlitCI "complain".toList)))]

/-- The analysis dictionary built by `analyze_scammer_message`. -/
structure MessageAnalysis where
  suspicion_detected : Bool
  unproductive_detected : Bool
  is_repetition : Bool
  indicators : List String
deriving Repr

/-- `message.strip().lower()` for the repetition comparison. -/
def stripLower (s : String) : List Char := lowerL (stripL s.toList)

/-- `StrategyEngine.analyze_scammer_message` as a state transformer:
appends each matched suspicion pattern to the cumulative indicator
list, flags unproductive patterns (without touching state), and
updates the repetition counter / last message. -/
def analyze_scammer_message (st : ConversationState) (message : String) :
    MessageAnalysis × ConversationState :=
  let suspHits := SUSPICION_INDICATORS.filter (fun pm => reSearch pm.2 message)
  let unprodHits := UNPRODUCTIVE_INDICATORS.filter
    (fun pm => reSearch pm.2 message)
  let is_rep := stripLower message = stripLower st.last_scammer_message
  let analysis : MessageAnalysis :=
    { suspicion_detected := !suspHits.isEmpty
      unproductive_detected := !unprodHits.isEmpty
      is_repetition := is_rep
      indicators := suspHits.map (fun pm => "suspicion:" ++ pm.1) ++
        unprodHits.map (fun pm => "unproductive:" ++ pm.1) }
  let st1 := { st with suspicion_indicators :=
    st.suspicion_indicators ++ suspHits.map Prod.fst }
  let st2 :=
    if is_rep then
      { st1 with scammer_repetitions := st1.scammer_repetitions + 1 }
    else
      { st1 with scammer_repetitions := 0, last_scammer_message := message }
  (analysis, st2)

/-- `StrategyEngine.get_strategy_guidance`: determines the phase,
stores it in the state and returns it.  (The accompanying static
goal/tactics/example text from `PHASE_STRATEGIES` is fixed
configuration data and is not modelled.) -/
def get_strategy_guidance (cfg : EngagementLimits) (entity_count : Nat)
    (st : ConversationState) : StrategyPhase × ConversationState :=
  let phase := determine_phase cfg st.message_count entity_count
  (phase, { st with current_phase := phase })

/-- `StrategyEngine.increment_message_count`. -/
def increment_message_count (st : ConversationState) : ConversationState :=
  { st with message_count := st.message_count + 1 }

/-- Which of the four fixed prompt additions
`get_adaptive_prompt_addition` returns (the texts themselves are
static data). -/
inductive AdaptiveGuidance
  | suspicionNotice | mediaExcuse | directQuestion | noGuidance
deriving DecidableEq, Repr

/-- The media request pattern
`r'(?:voice|audio|video|call|photo|picture)'`, under `re.IGNORECASE`. -/
def MEDIA_REQUEST_PATTERN : Matcher :=
  malt (mlitCI "voice".toList)
    (malt (mlitCI "audio".toList)
      (malt (mlitCI "video".toList)
        (malt (mlitCI "call".toList)
          (malt (mlitCI "photo".toList) (mlitCI "picture".toList)))))

/-- Helper for `str.split()`: whitespace-separated words, empties
dropped. -/
def splitWordsAux : List Char → List Char → List (List Char)
  | acc, [] => if acc.isEmpty then [] else [acc.reverse]
  | acc, c :: rest =>
    if isPySpace c then
      if acc.isEmpty then splitWordsAux [] rest
      else acc.reverse :: splitWordsAux [] rest
    else splitWordsAux (c :: acc) rest

/-- `len(message.split())`. -/
def wordCount (s : String) : Nat := (splitWordsAux [] s.toList).length

/-- `StrategyEngine.get_adaptive_prompt_addition`: analyzes the
message (mutating the state), then picks the guidance by fixed
precedence: suspicion, media request, short direct question, none. -/
def get_adaptive_prompt_addition (st : ConversationState)
    (scammer_message : String) : AdaptiveGuidance × ConversationState :=
  let r := analyze_scammer_message st scammer_message
  if r.1.suspicion_detected then (.suspicionNotice, r.2)
  else if reSearch MEDIA_REQUEST_PATTERN scammer_message then
    (.mediaExcuse, r.2)
  else if scammer_message.toList.contains '?' &&
      decide (wordCount scammer_message < 10) then
    (.directQuestion, r.2)
  else (.noGuidance, r.2)

/-- The summary dictionary of `get_state_summary` (the 2-decimal
display rounding of `elapsed_minutes` is omitted). -/
structure StateSummary where
  message_count : Nat
  elapsed_minutes : ℚ
  current_phase : StrategyPhase
  entities_extracted : Nat
  suspicion_indicators : Nat
  scammer_repetitions : Nat
deriving Repr

/-- `StrategyEngine.get_state_summary` (read-only). -/
def get_state_summary (st : ConversationState) (now : ℚ)
    (entity_count : Nat) : StateSummary :=
  { message_count := st.message_count
    elapsed_minutes := (now - st.start_time) / 60
    current_phase := st.current_phase
    entities_extracted := entity_count
    suspicion_indicators := st.suspicion_indicators.length
    scammer_repetitions := st.scammer_repetitions }

/-- The public operations of `StrategyEngine`, with their external
inputs (wall clock, extractor count, inbound message) as payload. -/
inductive EngineOp
  | shouldStop (now : ℚ) (entity_count : Nat)
  | analyzeMessage (message : String)
  | determinePhase (entity_count : Nat)
  | strategyGuidance (entity_count : Nat)
  | incrementMessageCount
  | adaptivePrompt (message : String)
  | stateSummary (now : ℚ) (entity_count : Nat)
deriving DecidableEq

/-- The state effect of each engine operation.  `should_stop`,
`determine_phase` and `get_state_summary` only read `self.state` in
the source, so their effect is the identity. -/
def applyOp (cfg : EngagementLimits) : EngineOp → ConversationState → ConversationState
  | .shouldStop _ _, st => st
  | .analyzeMessage msg, st => (analyze_scammer_message st msg).2
  | .determinePhase _, st => st
  | .strategyGuidance ec, st => (get_strategy_guidance cfg ec st).2
  | .incrementMessageCount, st => increment_message_count st
  | .adaptivePrompt msg, st => (get_adaptive_prompt_addition st msg).2
  | .stateSummary _ _, st => st

end StrategyEngine

/-! ## Counting helpers for the extraction claims -/

/-- The number of entities in a list with a given
(entityType, normalizedValue) key — the deduplication key of
`EntityExtractor._is_duplicate`. -/
def keyCount (l : List ExtractedEntity) (t : EntityType) (v : String) : Nat :=
  l.countP (fun e => decide (e.entity_type = t ∧ e.normalized_value = v))

/-- The configuration used by the weighted-fusion counterexample:
threshold 0.85, layer weights 2 / −1 / 0 (these sum to 1 and pass the
`Config.validate` weight-sum check). -/
def c4Config : ScamDetectionConfig := ⟨85/100, 2, -1, 0, true⟩

/-! ## Helper lemmas -/

/-- `analyze_scammer_message` never changes the message counter. -/
lemma analyze_message_count (st : ConversationState) (m : String) :
    (StrategyEngine.analyze_scammer_message st m).2.message_count =
      st.message_count := by
  simp only [StrategyEngine.analyze_scammer_message]
  split <;> rfl

/-- `get_adaptive_prompt_addition` never changes the message counter. -/
lemma adaptive_message_count (st : ConversationState) (m : String) :
    (StrategyEngine.get_adaptive_prompt_addition st m).2.message_count =
      st.message_count := by
  simp only [StrategyEngine.get_adaptive_prompt_addition]
  split
  · exact analyze_message_count st m
  · split
    · exact analyze_message_count st m
    · split
      · exact analyze_message_count st m
      · exact analyze_message_count st m

/-- Every entity produced by the extraction loops carries the
confidence assessed for its normalized value, its type and the
role. -/
lemma mem_entitiesFromMessage_confidence (cfg : EntityExtractionConfig)
    (message role : String) (e : ExtractedEntity)
    (hmem : e ∈ EntityExtractor.entitiesFromMessage cfg message role) :
    e.confidence = EntityExtractor._assess_confidence e.normalized_value
      e.entity_type message role := by
  simp only [EntityExtractor.entitiesFromMessage, List.mem_flatMap,
    List.mem_filterMap] at hmem
  obtain ⟨tp, -, pat, -, m, -, hmk⟩ := hmem
  by_cases hskip : (tp.1 = EntityType.UPI_ID &&
      EntityExtractor._is_likely_email (String.mk m.2)) = true
  · rw [if_pos hskip] at hmk; exact absurd hmk (by simp)
  · rw [if_neg hskip] at hmk
    obtain rfl := Option.some.inj hmk
    rfl

/-- `_is_duplicate` holds exactly when the running list already
contains the entity's (type, normalized value) key. -/
lemma isDuplicate_iff (e : ExtractedEntity) (l : List ExtractedEntity) :
    EntityExtractor._is_duplicate e l = true ↔
      0 < keyCount l e.entity_type e.normalized_value := by
  simp [EntityExtractor._is_duplicate, keyCount, List.any_eq_true,
    List.countP_pos_iff]

/-- Appending one entity adds one to the count of its key and leaves
other keys unchanged. -/
lemma keyCount_append_one (l : List ExtractedEntity) (e : ExtractedEntity)
    (t : EntityType) (v : String) :
    keyCount (l ++ [e]) t v = keyCount l t v +
      (if e.entity_type = t ∧ e.normalized_value = v then 1 else 0) := by
  simp only [keyCount, List.countP_append, List.countP_cons, List.countP_nil]
  by_cases h : e.entity_type = t ∧ e.normalized_value = v <;> simp [h]

/-- The deduplicating append keeps every key's count at most one. -/
lemma keyCount_dedupAppend_le (l : List ExtractedEntity) (e : ExtractedEntity)
    (t : EntityType) (v : String) (h : keyCount l t v ≤ 1) :
    keyCount (EntityExtractor.dedupAppend l e) t v ≤ 1 := by
  by_cases hdup : EntityExtractor._is_duplicate e l = true
  · simpa [EntityExtractor.dedupAppend, hdup] using h
  · rw [EntityExtractor.dedupAppend, if_neg hdup, keyCount_append_one]
    by_cases hkey : e.entity_type = t ∧ e.normalized_value = v
    · have h0 : keyCount l t v = 0 := by
        by_contra hne
        exact hdup ((isDuplicate_iff e l).2 (by rw [hkey.1, hkey.2]; omega))
      rw [h0, if_pos hkey]
    · rw [if_neg hkey]; omega

/-- The deduplicating append never decreases a key's count. -/
lemma keyCount_dedupAppend_mono (l : List ExtractedEntity) (e : ExtractedEntity)
    (t : EntityType) (v : String) :
    keyCount l t v ≤ keyCount (EntityExtractor.dedupAppend l e) t v := by
  by_cases hdup : EntityExtractor._is_duplicate e l = true
  · simp [EntityExtractor.dedupAppend, hdup]
  · rw [EntityExtractor.dedupAppend, if_neg hdup, keyCount_append_one]; omega

/-- Folding the deduplicating append keeps a key's count at most one. -/
lemma keyCount_foldl_le (es : List ExtractedEntity) (l : List ExtractedEntity)
    (t : EntityType) (v : String) (h : keyCount l t v ≤ 1) :
    keyCount (es.foldl EntityExtractor.dedupAppend l) t v ≤ 1 := by
  induction es generalizing l with
  | nil => exact h
  | cons a rest ih =>
    exact ih (EntityExtractor.dedupAppend l a) (keyCount_dedupAppend_le l a t v h)

/-- Folding the deduplicating append never decreases a key's count. -/
lemma keyCount_foldl_mono (es : List ExtractedEntity) (l : List ExtractedEntity)
    (t : EntityType) (v : String) :
    keyCount l t v ≤ keyCount (es.foldl EntityExtractor.dedupAppend l) t v := by
  induction es generalizing l with
  | nil => exact le_refl _
  | cons a rest ih =>
    exact le_trans (keyCount_dedupAppend_mono l a t v)
      (ih (EntityExtractor.dedupAppend l a))

/-- A key reported in the per-call list is present in the running list
after the deduplicating fold. -/
lemma keyCount_foldl_pos (es : List ExtractedEntity) (l : List ExtractedEntity)
    (t : EntityType) (v : String) (h : 0 < keyCount es t v) :
    0 < keyCount (es.foldl EntityExtractor.dedupAppend l) t v := by
  induction es generalizing l with
  | nil => simp [keyCount] at h
  | cons a rest ih =>
    rw [List.foldl_cons]
    by_cases hkey : a.entity_type = t ∧ a.normalized_value = v
    · refine lt_of_lt_of_le ?_
        (keyCount_foldl_mono rest (EntityExtractor.dedupAppend l a) t v)
      by_cases hdup : EntityExtractor._is_duplicate a l = true
      · rw [EntityExtractor.dedupAppend, if_pos hdup]
        have := (isDuplicate_iff a l).1 hdup
        rwa [hkey.1, hkey.2] at this
      · rw [EntityExtractor.dedupAppend, if_neg hdup, keyCount_append_one,
          if_pos hkey]
        omega
    · apply ih
      rw [keyCount, List.countP_cons] at h
      rw [keyCount]
      by_cases hp : (decide (a.entity_type = t ∧ a.normalized_value = v)) = true
      · exact absurd (of_decide_eq_true hp) hkey
      · simpa [hp] using h

/-- The `layer_scores` field of `ScamDetector.detect`, unfolded. -/
lemma detect_layer_scores (cfg : ScamDetectionConfig) (msg : String)
    (sender : Option String) (oracle : OracleOutcome) :
    (ScamDetector.detect cfg msg sender oracle).layer_scores =
      [("keyword", (KeywordDetector.detect cfg msg sender).score),
       ("pattern", (PatternDetector.detect msg).score),
       ("llm", ScamDetector.llm_score oracle)] := rfl

/-- The `confidence` field of `ScamDetector.detect`, unfolded. -/
lemma detect_confidence (cfg : ScamDetectionConfig) (msg : String)
    (sender : Option String) (oracle : OracleOutcome) :
    (ScamDetector.detect cfg msg sender oracle).confidence =
      calculate_weighted_score
        [("keyword", (KeywordDetector.detect cfg msg sender).score),
         ("pattern", (PatternDetector.detect msg).score),
         ("llm", ScamDetector.llm_score oracle)]
        [("keyword", cfg.keyword_weight), ("pattern", cfg.pattern_weight),
         ("llm", cfg.llm_weight)] := rfl

/-- The `is_scam` field of `ScamDetector.detect` is the thresholding of
its `confidence` field. -/
lemma detect_is_scam (cfg : ScamDetectionConfig) (msg : String)
    (sender : Option String) (oracle : OracleOutcome) :
    (ScamDetector.detect cfg msg sender oracle).is_scam =
      decide ((ScamDetector.detect cfg msg sender oracle).confidence ≥
        cfg.confidence_threshold) := rfl

/-- `calculate_weighted_score` on the three-layer dictionaries of
`ScamDetector.detect`, in closed form. -/
lemma calculate_weighted_three (ks ps ls kw pw lw : ℚ) :
    calculate_weighted_score
      [("keyword", ks), ("pattern", ps), ("llm", ls)]
      [("keyword", kw), ("pattern", pw), ("llm", lw)] =
      if kw + pw + lw > 0 then (ks * kw + ps * pw + ls * lw) / (kw + pw + lw)
      else 0 := by
  simp only [calculate_weighted_score, lookupScore, List.find?]
  have h1 : kw + (pw + lw) = kw + pw + lw := by ring
  have h2 : ks * kw + (ps * pw + ls * lw) = ks * kw + ps * pw + ls * lw := by ring
  simp [h1, h2]

/-- The keyword layer score always lies in `[0, 1]`. -/
lemma keywordScore_bounds (cfg : ScamDetectionConfig) (msg : String)
    (sender : Option String) :
    0 ≤ (KeywordDetector.detect cfg msg sender).score ∧
      (KeywordDetector.detect cfg msg sender).score ≤ 1 := by
  rw [KeywordDetector.detect]
  split
  · norm_num
  · refine ⟨le_min ?_ (by norm_num), min_le_right _ _⟩
    repeat' split
    all_goals norm_num

/-- The pattern layer score always lies in `[0, 1]`. -/
lemma patternScore_bounds (msg : String) :
    0 ≤ (PatternDetector.detect msg).score ∧
      (PatternDetector.detect msg).score ≤ 1 := by
  rw [PatternDetector.detect]
  refine ⟨le_min ?_ (by norm_num), min_le_right _ _⟩
  repeat' apply add_nonneg
  all_goals split <;> norm_num

/-- The semantic layer contributes zero when the oracle call failed. -/
lemma llmScore_failure : ScamDetector.llm_score OracleOutcome.failure = 0 := rfl

/-- The semantic layer contributes zero on oracle failure or an
oracle verdict of not-scam. -/
lemma llmScore_not_scam (oracle : OracleOutcome)
    (h : oracle = OracleOutcome.failure ∨
      ∃ d, oracle = OracleOutcome.parsed d ∧ d.is_scam = some false) :
    ScamDetector.llm_score oracle = 0 := by
  rcases h with h | ⟨d, rfl, hd⟩
  · rw [h]; rfl
  · simp [ScamDetector.llm_score, LLMInterface.detect_scam, hd]

/-- A separator-join of a list ending in `x` ends in `x`. -/
lemma joinSep_ends_with (sep : String) (xs : List String) (x : String) :
    ∃ pre, joinSep sep (xs ++ [x]) = pre ++ x := by
  induction xs with
  | nil => exact ⟨"", by simp [joinSep]⟩
  | cons a rest ih =>
    obtain ⟨pre, hp⟩ := ih
    cases rest with
    | nil => exact ⟨a ++ sep, by simp [joinSep, String.append_assoc]⟩
    | cons b t =>
      refine ⟨a ++ sep ++ pre, ?_⟩
      show joinSep sep (a :: ((b :: t) ++ [x])) = a ++ sep ++ pre ++ x
      rw [show joinSep sep (a :: ((b :: t) ++ [x])) =
        a ++ sep ++ joinSep sep ((b :: t) ++ [x]) from rfl, hp,
        String.append_assoc, String.append_assoc, String.append_assoc]

/-- The pattern layer finds nothing in `"urgent hurry money cash"`. -/
lemma patternScore_umc :
    (PatternDetector.detect "urgent hurry money cash").score = 0 := by
  rw [PatternDetector.detect]
  norm_num [show PatternDetector.phone_matches "urgent hurry money cash" = []
      from by decide,
    show PatternDetector.bank_matches "urgent hurry money cash" = []
      from by decide,
    show PatternDetector.upi_matches "urgent hurry money cash" = []
      from by decide,
    show PatternDetector.url_matches "urgent hurry money cash" = []
      from by decide,
    show PatternDetector.payment_count "urgent hurry money cash" = 0
      from by decide,
    show PatternDetector.obfuscated "urgent hurry money cash" = false
      from by decide]

/-- The keyword layer scores `"urgent hurry money cash"` 0.8 under the
counterexample configuration (two urgency and two money hits). -/
lemma kwScore_umc :
    (KeywordDetector.detect c4Config "urgent hurry money cash" none).score =
      8/10 := by
  rw [KeywordDetector.detect, if_neg (by decide)]
  simp only [show KeywordDetector.countHits KeywordDetector.URGENCY_KEYWORDS
      (lowerL "urgent hurry money cash".toList) = 2 from by decide,
    show KeywordDetector.countHits KeywordDetector.MONEY_KEYWORDS
      (lowerL "urgent hurry money cash".toList) = 2 from by decide,
    show KeywordDetector.countHits KeywordDetector.THREAT_KEYWORDS
      (lowerL "urgent hurry money cash".toList) = 0 from by decide,
    show KeywordDetector.countHits KeywordDetector.REQUEST_KEYWORDS
      (lowerL "urgent hurry money cash".toList) = 0 from by decide,
    show KeywordDetector.countHits KeywordDetector.PRIZE_KEYWORDS
      (lowerL "urgent hurry money cash".toList) = 0 from by decide,
    show KeywordDetector.countHits KeywordDetector.JOB_KEYWORDS
      (lowerL "urgent hurry money cash".toList) = 0 from by decide]
  norm_num

/-- The pattern layer scores `"upi paytm"` 0.2: the only structural
signal is the two payment-method mentions. -/
lemma patternScore_up : (PatternDetector.detect "upi paytm").score = 1/5 := by
  rw [PatternDetector.detect]
  norm_num [show PatternDetector.phone_matches "upi paytm" = [] from by decide,
    show PatternDetector.bank_matches "upi paytm" = [] from by decide,
    show PatternDetector.upi_matches "upi paytm" = [] from by decide,
    show PatternDetector.url_matches "upi paytm" = [] from by decide,
    show PatternDetector.payment_count "upi paytm" = 2 from by decide,
    show PatternDetector.obfuscated "upi paytm" = false from by decide]

/-! ## Claim C1 -/

/-- Claim C1, counterexample: for the whitelisted sender
`boss@amazon.com` (whitelist enabled in the default configuration) and
the message `"upi paytm"`, the fused classification confidence is 0.06
(pattern layer 0.2 times weight 0.3), not 0.0 — so a whitelisted
sender does not force confidence 0.0 regardless of message content. -/
theorem c1_counterexample :
    KeywordDetector.whitelistHit defaultScamConfig (some "boss@amazon.com") = true ∧
    (ScamDetector.detect defaultScamConfig "upi paytm" (some "boss@amazon.com")
      OracleOutcome.failure).confidence = 3/50 ∧
    (ScamDetector.detect defaultScamConfig "upi paytm" (some "boss@amazon.com")
      OracleOutcome.failure).confidence ≠ 0 := by
  have hkd : KeywordDetector.detect defaultScamConfig "upi paytm"
      (some "boss@amazon.com") =
      { score := 0, scam_type := ScamType.NOT_SCAM,
        indicators := ["whitelisted_sender"] } := by
    rw [KeywordDetector.detect, if_pos (by decide)]
  have hc : (ScamDetector.detect defaultScamConfig "upi paytm"
      (some "boss@amazon.com") OracleOutcome.failure).confidence = 3/50 := by
    rw [detect_confidence, hkd, patternScore_up, llmScore_failure,
      calculate_weighted_three]
    norm_num [defaultScamConfig]
  exact ⟨by decide, hc, by rw [hc]; norm_num⟩

/-- Claim C1, as amended: for every message, whitelisted sender and
oracle outcome, the keyword layer short-circuits to score 0.0, type
not-scam and the sole indicator `whitelisted_sender`; the overall
`ScamDetectionResult` has scam type not-scam, and its confidence is
the weighted fusion in which the keyword layer contributes 0 — the
pattern and semantic layers still contribute, so the fused confidence
is not 0.0 in general. -/
theorem c1_whitelist (cfg : ScamDetectionConfig) (msg s : String)
    (oracle : OracleOutcome)
    (hwl : KeywordDetector.whitelistHit cfg (some s) = true) :
    KeywordDetector.detect cfg msg (some s) =
      { score := 0, scam_type := ScamType.NOT_SCAM,
        indicators := ["whitelisted_sender"] } ∧
    (ScamDetector.detect cfg msg (some s) oracle).scam_type = ScamType.NOT_SCAM ∧
    (ScamDetector.detect cfg msg (some s) oracle).confidence =
      calculate_weighted_score
        [("keyword", 0), ("pattern", (PatternDetector.detect msg).score),
         ("llm", ScamDetector.llm_score oracle)]
        [("keyword", cfg.keyword_weight), ("pattern", cfg.pattern_weight),
         ("llm", cfg.llm_weight)] := by
  have hkd : KeywordDetector.detect cfg msg (some s) =
      { score := 0, scam_type := ScamType.NOT_SCAM,
        indicators := ["whitelisted_sender"] } := by
    rw [KeywordDetector.detect, if_pos hwl]
  refine ⟨hkd, ?_, ?_⟩
  · show (if (KeywordDetector.detect cfg msg (some s)).scam_type ≠ ScamType.UNKNOWN
        then (KeywordDetector.detect cfg msg (some s)).scam_type
        else _) = ScamType.NOT_SCAM
    rw [hkd]
    norm_num
    exact fun h => absurd h (by decide)
  · rw [detect_confidence, hkd]

/-- Claim C1 witness: the amended statement instantiated at the
default configuration, message `"upi paytm"`, sender
`boss@amazon.com` and a failed oracle call. -/
theorem c1_whitelist_witness :
    KeywordDetector.detect defaultScamConfig "upi paytm" (some "boss@amazon.com") =
      { score := 0, scam_type := ScamType.NOT_SCAM,
        indicators := ["whitelisted_sender"] } ∧
    (ScamDetector.detect defaultScamConfig "upi paytm" (some "boss@amazon.com")
      OracleOutcome.failure).scam_type = ScamType.NOT_SCAM ∧
    (ScamDetector.detect defaultScamConfig "upi paytm" (some "boss@amazon.com")
      OracleOutcome.failure).confidence =
      calculate_weighted_score
        [("keyword", 0), ("pattern", (PatternDetector.detect "upi paytm").score),
         ("llm", ScamDetector.llm_score OracleOutcome.failure)]
        [("keyword", defaultScamConfig.keyword_weight),
         ("pattern", defaultScamConfig.pattern_weight),
         ("llm", defaultScamConfig.llm_weight)] :=
  c1_whitelist defaultScamConfig "upi paytm" "boss@amazon.com"
    OracleOutcome.failure (by decide)

/-! ## Claim C2 -/

/-- Claim C2, counterexample: at messageCount 5 with one high-value
entity (default maxMessages 15), `determine_phase` returns
extractIntel, not delayProbe — the `messageCount < 8 ∧ entityCount <
2` branch is checked before the `entityCount ≥ 1` branch. -/
theorem c2_counterexample :
    StrategyEngine.determine_phase defaultEngagement 5 1 =
      StrategyPhase.EXTRACT_INTEL ∧
    StrategyEngine.determine_phase defaultEngagement 5 1 ≠
      StrategyPhase.DELAY_PROBE := by
  constructor <;> decide

/-- Claim C2, as amended: messageCount 2 yields buildTrust for every
entity count, and messageCount 5 with highValueEntityCount 1 (default
maxMessages 15) yields extractIntel, the extractIntel branch taking
precedence over the entityCount ≥ 1 delayProbe branch. -/
theorem c2_amended :
    (∀ entity_count : Nat,
      StrategyEngine.determine_phase defaultEngagement 2 entity_count =
        StrategyPhase.BUILD_TRUST) ∧
    StrategyEngine.determine_phase defaultEngagement 5 1 =
      StrategyPhase.EXTRACT_INTEL :=
  ⟨fun _ => rfl, by decide⟩

/-! ## Claim C3 -/

/-- Claim C3: `should_stop` checks its five conditions in the fixed
priority order maxMessages, timeLimit, entitiesSufficient,
scammerSuspicious, unproductive, returns the reason of the first
condition that holds (and continues when none does); in particular,
whenever both the message limit and the entity minimum are reached,
the returned reason is maxMessages. -/
theorem c3_stop_priority (cfg : EngagementLimits) (st : ConversationState)
    (now : ℚ) (entity_count : Nat) :
    (((st.message_count : ℤ) ≥ cfg.max_messages) →
      StrategyEngine.should_stop cfg st now entity_count =
        (true, some StopReason.MAX_MESSAGES)) ∧
    (¬((st.message_count : ℤ) ≥ cfg.max_messages) →
      ((now - st.start_time) / 60 ≥ (cfg.max_duration_minutes : ℚ)) →
      StrategyEngine.should_stop cfg st now entity_count =
        (true, some StopReason.TIME_LIMIT)) ∧
    (¬((st.message_count : ℤ) ≥ cfg.max_messages) →
      ¬((now - st.start_time) / 60 ≥ (cfg.max_duration_minutes : ℚ)) →
      ((entity_count : ℤ) ≥ cfg.min_entities_for_stop) →
      StrategyEngine.should_stop cfg st now entity_count =
        (true, some StopReason.ENTITIES_EXTRACTED)) ∧
    (¬((st.message_count : ℤ) ≥ cfg.max_messages) →
      ¬((now - st.start_time) / 60 ≥ (cfg.max_duration_minutes : ℚ)) →
      ¬((entity_count : ℤ) ≥ cfg.min_entities_for_stop) →
      (st.suspicion_indicators.length ≥ 2) →
      StrategyEngine.should_stop cfg st now entity_count =
        (true, some StopReason.SCAMMER_SUSPICIOUS)) ∧
    (¬((st.message_count : ℤ) ≥ cfg.max_messages) →
      ¬((now - st.start_time) / 60 ≥ (cfg.max_duration_minutes : ℚ)) →
      ¬((entity_count : ℤ) ≥ cfg.min_entities_for_stop) →
      ¬(st.suspicion_indicators.length ≥ 2) →
      ((st.scammer_repetitions : ℤ) ≥ cfg.max_repetitions) →
      StrategyEngine.should_stop cfg st now entity_count =
        (true, some StopReason.UNPRODUCTIVE)) ∧
    (¬((st.message_count : ℤ) ≥ cfg.max_messages) →
      ¬((now - st.start_time) / 60 ≥ (cfg.max_duration_minutes : ℚ)) →
      ¬((entity_count : ℤ) ≥ cfg.min_entities_for_stop) →
      ¬(st.suspicion_indicators.length ≥ 2) →
      ¬((st.scammer_repetitions : ℤ) ≥ cfg.max_repetitions) →
      StrategyEngine.should_stop cfg st now entity_count = (false, none)) ∧
    (((st.message_count : ℤ) ≥ cfg.max_messages) →
      ((entity_count : ℤ) ≥ cfg.min_entities_for_stop) →
      StrategyEngine.should_stop cfg st now entity_count =
        (true, some StopReason.MAX_MESSAGES)) := by
  refine ⟨?_, ?_, ?_, ?_, ?_, ?_, ?_⟩ <;>
    intros <;> simp only [StrategyEngine.should_stop] <;> simp [*]

/-- Claim C3 witness: a session at 20 messages with 5 high-value
entities under the default limits — both the message limit and the
entity minimum hold, and the returned reason is maxMessages. -/
theorem c3_stop_priority_witness :
    StrategyEngine.should_stop defaultEngagement
      { message_count := 20, start_time := 0, current_phase := .BUILD_TRUST,
        scammer_repetitions := 0, last_scammer_message := "",
        suspicion_indicators := [] } 0 5 =
      (true, some StopReason.MAX_MESSAGES) :=
  (c3_stop_priority defaultEngagement
    { message_count := 20, start_time := 0, current_phase := .BUILD_TRUST,
      scammer_repetitions := 0, last_scammer_message := "",
      suspicion_indicators := [] } 0 5).2.2.2.2.2.2 (by decide) (by decide)

/-! ## Claim C4 -/

/-- Claim C4, counterexample: the layer weights 2 / −1 / 0 sum to 1.0
(and pass the `Config.validate` weight-sum check), all three layer
scores of the message `"urgent hurry money cash"` lie in `[0, 1]`, yet
the fused confidence is 1.6 — outside `[0, 1]`.  Nonnegativity of the
weights is required for the boundedness part of the claim. -/
theorem c4_counterexample :
    c4Config.keyword_weight + c4Config.pattern_weight + c4Config.llm_weight = 1 ∧
    weightsPassValidation c4Config ∧
    (ScamDetector.detect c4Config "urgent hurry money cash" none
      OracleOutcome.failure).layer_scores =
      [("keyword", 8/10), ("pattern", 0), ("llm", 0)] ∧
    (ScamDetector.detect c4Config "urgent hurry money cash" none
      OracleOutcome.failure).confidence = 8/5 ∧
    ¬((ScamDetector.detect c4Config "urgent hurry money cash" none
      OracleOutcome.failure).confidence ≤ 1) := by
  have hc : (ScamDetector.detect c4Config "urgent hurry money cash" none
      OracleOutcome.failure).confidence = 8/5 := by
    rw [detect_confidence, kwScore_umc, patternScore_umc, llmScore_failure,
      calculate_weighted_three]
    norm_num [c4Config]
  refine ⟨by norm_num [c4Config], by norm_num [weightsPassValidation, c4Config],
    ?_, hc, by rw [hc]; norm_num⟩
  rw [detect_layer_scores, kwScore_umc, patternScore_umc, llmScore_failure]

/-- Claim C4, as amended: for every configuration whose three
nonnegative layer weights sum to 1.0 and every input whose three layer
scores lie in `[0, 1]`, the fused classification confidence equals
the weighted mean of the layer scores exactly, lies in `[0, 1]`, and
`is_scam` holds iff the confidence reaches the configured threshold. -/
theorem c4_fusion (cfg : ScamDetectionConfig) (msg : String)
    (sender : Option String) (oracle : OracleOutcome)
    (hkw : 0 ≤ cfg.keyword_weight) (hpw : 0 ≤ cfg.pattern_weight)
    (hlw : 0 ≤ cfg.llm_weight)
    (hsum : cfg.keyword_weight + cfg.pattern_weight + cfg.llm_weight = 1)
    (hk0 : 0 ≤ (KeywordDetector.detect cfg msg sender).score)
    (hk1 : (KeywordDetector.detect cfg msg sender).score ≤ 1)
    (hp0 : 0 ≤ (PatternDetector.detect msg).score)
    (hp1 : (PatternDetector.detect msg).score ≤ 1)
    (hl0 : 0 ≤ ScamDetector.llm_score oracle)
    (hl1 : ScamDetector.llm_score oracle ≤ 1) :
    (ScamDetector.detect cfg msg sender oracle).confidence =
      (KeywordDetector.detect cfg msg sender).score * cfg.keyword_weight +
      (PatternDetector.detect msg).score * cfg.pattern_weight +
      ScamDetector.llm_score oracle * cfg.llm_weight ∧
    0 ≤ (ScamDetector.detect cfg msg sender oracle).confidence ∧
    (ScamDetector.detect cfg msg sender oracle).confidence ≤ 1 ∧
    ((ScamDetector.detect cfg msg sender oracle).is_scam = true ↔
      cfg.confidence_threshold ≤
        (ScamDetector.detect cfg msg sender oracle).confidence) := by
  have hc : (ScamDetector.detect cfg msg sender oracle).confidence =
      (KeywordDetector.detect cfg msg sender).score * cfg.keyword_weight +
      (PatternDetector.detect msg).score * cfg.pattern_weight +
      ScamDetector.llm_score oracle * cfg.llm_weight := by
    rw [detect_confidence, calculate_weighted_three,
      if_pos (by rw [hsum]; norm_num), hsum, div_one]
  refine ⟨hc, ?_, ?_, ?_⟩
  · rw [hc]
    have := mul_nonneg hk0 hkw
    have := mul_nonneg hp0 hpw
    have := mul_nonneg hl0 hlw
    linarith
  · rw [hc]
    have h1 : (KeywordDetector.detect cfg msg sender).score *
        cfg.keyword_weight ≤ cfg.keyword_weight := by nlinarith
    have h2 : (PatternDetector.detect msg).score * cfg.pattern_weight ≤
        cfg.pattern_weight := by nlinarith
    have h3 : ScamDetector.llm_score oracle * cfg.llm_weight ≤
        cfg.llm_weight := by nlinarith
    linarith
  · rw [detect_is_scam]
    simp [ge_iff_le]

/-- Claim C4 witness: the amended statement instantiated at the
default configuration (weights 0.3/0.3/0.4), the message `"hello"`
and a failed oracle call, the score bounds discharged by the general
layer-score bound lemmas. -/
theorem c4_fusion_witness :
    (ScamDetector.detect defaultScamConfig "hello" none
      OracleOutcome.failure).confidence =
      (KeywordDetector.detect defaultScamConfig "hello" none).score *
        defaultScamConfig.keyword_weight +
      (PatternDetector.detect "hello").score * defaultScamConfig.pattern_weight +
      ScamDetector.llm_score OracleOutcome.failure * defaultScamConfig.llm_weight ∧
    0 ≤ (ScamDetector.detect defaultScamConfig "hello" none
      OracleOutcome.failure).confidence ∧
    (ScamDetector.detect defaultScamConfig "hello" none
      OracleOutcome.failure).confidence ≤ 1 ∧
    ((ScamDetector.detect defaultScamConfig "hello" none
      OracleOutcome.failure).is_scam = true ↔
      defaultScamConfig.confidence_threshold ≤
        (ScamDetector.detect defaultScamConfig "hello" none
          OracleOutcome.failure).confidence) :=
  c4_fusion defaultScamConfig "hello" none OracleOutcome.failure
    (by norm_num [defaultScamConfig]) (by norm_num [defaultScamConfig])
    (by norm_num [defaultScamConfig]) (by norm_num [defaultScamConfig])
    (keywordScore_bounds defaultScamConfig "hello" none).1
    (keywordScore_bounds defaultScamConfig "hello" none).2
    (patternScore_bounds "hello").1 (patternScore_bounds "hello").2
    (by rw [llmScore_failure]) (by rw [llmScore_failure]; norm_num)

/-! ## Claim C5 -/

/-- Claim C5: extraction is idempotent for duplicates.  For every
session state in which each (entityType, normalizedValue) key occurs
at most once, and every key reported by a call of `extract`, the
running deduplicated set holds exactly one entry for that key after
the call and still exactly one after extracting the same message
again; the second call returns the same per-call list as the first,
so the two calls together report the key at least twice. -/
theorem c5_dedup (cfg : EntityExtractionConfig) (st : List ExtractedEntity)
    (message role : String) (t : EntityType) (v : String)
    (hinv : keyCount st t v ≤ 1)
    (hrep : 1 ≤ keyCount (EntityExtractor.extract cfg st message role).1 t v) :
    keyCount (EntityExtractor.extract cfg st message role).2 t v = 1 ∧
    (EntityExtractor.extract cfg (EntityExtractor.extract cfg st message role).2
      message role).1 = (EntityExtractor.extract cfg st message role).1 ∧
    keyCount (EntityExtractor.extract cfg
      (EntityExtractor.extract cfg st message role).2 message role).2 t v = 1 ∧
    2 ≤ keyCount ((EntityExtractor.extract cfg st message role).1 ++
      (EntityExtractor.extract cfg (EntityExtractor.extract cfg st message role).2
        message role).1) t v := by
  have hfst : (EntityExtractor.extract cfg st message role).1 =
      EntityExtractor.entitiesFromMessage cfg message role := rfl
  have hsnd : (EntityExtractor.extract cfg st message role).2 =
      (EntityExtractor.entitiesFromMessage cfg message role).foldl
        EntityExtractor.dedupAppend st := rfl
  have hes : 1 ≤ keyCount (EntityExtractor.entitiesFromMessage cfg message role) t v := by
    rwa [hfst] at hrep
  have h1 : keyCount ((EntityExtractor.entitiesFromMessage cfg message role).foldl
      EntityExtractor.dedupAppend st) t v = 1 := by
    have hle := keyCount_foldl_le
      (EntityExtractor.entitiesFromMessage cfg message role) st t v hinv
    have hpos := keyCount_foldl_pos
      (EntityExtractor.entitiesFromMessage cfg message role) st t v (by omega)
    omega
  have hsnd2 : (EntityExtractor.extract cfg
      (EntityExtractor.extract cfg st message role).2 message role).2 =
      (EntityExtractor.entitiesFromMessage cfg message role).foldl
        EntityExtractor.dedupAppend
        ((EntityExtractor.entitiesFromMessage cfg message role).foldl
          EntityExtractor.dedupAppend st) := rfl
  refine ⟨by rw [hsnd]; exact h1, rfl, ?_, ?_⟩
  · have hle := keyCount_foldl_le
      (EntityExtractor.entitiesFromMessage cfg message role)
      ((EntityExtractor.entitiesFromMessage cfg message role).foldl
        EntityExtractor.dedupAppend st) t v (by omega)
    have hmono := keyCount_foldl_mono
      (EntityExtractor.entitiesFromMessage cfg message role)
      ((EntityExtractor.entitiesFromMessage cfg message role).foldl
        EntityExtractor.dedupAppend st) t v
    rw [hsnd2]
    omega
  · rw [keyCount, List.countP_append, ← keyCount, ← keyCount, hfst]
    have heq : (EntityExtractor.extract cfg
        (EntityExtractor.extract cfg st message role).2 message role).1 =
        EntityExtractor.entitiesFromMessage cfg message role := rfl
    rw [heq]
    omega

/-- Claim C5 witness: extracting `"claim@paytm"` twice from an empty
session leaves exactly one UPI entry `claim@paytm` in the
deduplicated set while both calls report it. -/
theorem c5_dedup_witness :
    keyCount (EntityExtractor.extract defaultEntityConfig [] "claim@paytm"
      "scammer").2 EntityType.UPI_ID "claim@paytm" = 1 ∧
    (EntityExtractor.extract defaultEntityConfig
        (EntityExtractor.extract defaultEntityConfig [] "claim@paytm" "scammer").2
        "claim@paytm" "scammer").1 =
      (EntityExtractor.extract defaultEntityConfig [] "claim@paytm" "scammer").1 ∧
    keyCount (EntityExtractor.extract defaultEntityConfig
        (EntityExtractor.extract defaultEntityConfig [] "claim@paytm" "scammer").2
        "claim@paytm" "scammer").2 EntityType.UPI_ID "claim@paytm" = 1 ∧
    2 ≤ keyCount
      ((EntityExtractor.extract defaultEntityConfig [] "claim@paytm" "scammer").1 ++
       (EntityExtractor.extract defaultEntityConfig
         (EntityExtractor.extract defaultEntityConfig [] "claim@paytm" "scammer").2
         "claim@paytm" "scammer").1) EntityType.UPI_ID "claim@paytm" :=
  c5_dedup defaultEntityConfig [] "claim@paytm" "scammer"
    EntityType.UPI_ID "claim@paytm" (by decide) (by decide)

/-! ## Claim C6 -/

/-- Claim C6: for every non-whitelisted message whose lower-cased text
contains at least 2 urgency keywords and at least 2 money keywords or
at least 2 threat keywords, the lexical layer score is exactly 0.8 —
the urgency-with-money-or-threat override, taken before all density
tiers. -/
theorem c6_override (cfg : ScamDetectionConfig) (message : String)
    (sender : Option String)
    (hwl : KeywordDetector.whitelistHit cfg sender = false)
    (hu : KeywordDetector.countHits KeywordDetector.URGENCY_KEYWORDS
      (lowerL message.toList) ≥ 2)
    (hmt : KeywordDetector.countHits KeywordDetector.MONEY_KEYWORDS
        (lowerL message.toList) ≥ 2 ∨
      KeywordDetector.countHits KeywordDetector.THREAT_KEYWORDS
        (lowerL message.toList) ≥ 2) :
    (KeywordDetector.detect cfg message sender).score = 8/10 := by
  simp only [KeywordDetector.detect, hwl, Bool.false_eq_true, if_false]
  rw [if_pos ⟨hu, hmt⟩]
  norm_num

/-- Claim C6 witness: `"urgent hurry money cash"` with no sender under
the default configuration has two urgency and two money hits, and its
lexical layer score is 0.8. -/
theorem c6_override_witness :
    (KeywordDetector.detect defaultScamConfig "urgent hurry money cash"
      none).score = 8/10 :=
  c6_override defaultScamConfig "urgent hurry money cash" none
    (by decide) (by decide) (Or.inl (by decide))

/-! ## Claim C7 -/

/-- Claim C7: on a semantic-oracle error — the oracle call reports
failure, or the oracle reports isScam false — the semantic layer
contributes exactly 0.0 to the fused score (the llm entry of the
layer-score map is 0 and the confidence is the weighted fusion with
llm term 0), classification still returns a `ScamDetectionResult`
(the model is a total function), and on oracle failure the result's
reasoning ends with the degradation note `LLM analysis failed`. -/
theorem c7_degradation (cfg : ScamDetectionConfig) (msg : String)
    (sender : Option String) (oracle : OracleOutcome)
    (h : oracle = OracleOutcome.failure ∨
      ∃ d, oracle = OracleOutcome.parsed d ∧ d.is_scam = some false) :
    (ScamDetector.detect cfg msg sender oracle).layer_scores =
      [("keyword", (KeywordDetector.detect cfg msg sender).score),
       ("pattern", (PatternDetector.detect msg).score), ("llm", 0)] ∧
    (ScamDetector.detect cfg msg sender oracle).confidence =
      calculate_weighted_score
        [("keyword", (KeywordDetector.detect cfg msg sender).score),
         ("pattern", (PatternDetector.detect msg).score), ("llm", 0)]
        [("keyword", cfg.keyword_weight), ("pattern", cfg.pattern_weight),
         ("llm", cfg.llm_weight)] ∧
    (oracle = OracleOutcome.failure →
      ∃ pre, (ScamDetector.detect cfg msg sender oracle).reasoning =
        pre ++ "LLM: LLM analysis failed") := by
  have hz := llmScore_not_scam oracle h
  refine ⟨by rw [detect_layer_scores, hz], by rw [detect_confidence, hz], ?_⟩
  rintro rfl
  have hr : (ScamDetector.detect cfg msg sender OracleOutcome.failure).reasoning =
      joinSep " | "
        (((if (KeywordDetector.detect cfg msg sender).indicators.isEmpty then []
           else ["Keywords: " ++
             joinSep ", " (KeywordDetector.detect cfg msg sender).indicators]) ++
          (if (PatternDetector.detect msg).indicators.isEmpty then []
           else ["Patterns: " ++
             joinSep ", " (PatternDetector.detect msg).indicators])) ++
         ["LLM: " ++ "LLM analysis failed"]) := by
    show (if _ then "No strong indicators" else _) = _
    rw [if_neg (by simp [LLMInterface.detect_scam])]
    rfl
  rw [hr]
  exact joinSep_ends_with " | " _ _

/-- Claim C7 witness: the statement instantiated at the default
configuration, the message `"hello"`, no sender and a failed oracle
call. -/
theorem c7_degradation_witness :
    (ScamDetector.detect defaultScamConfig "hello" none
      OracleOutcome.failure).layer_scores =
      [("keyword", (KeywordDetector.detect defaultScamConfig "hello" none).score),
       ("pattern", (PatternDetector.detect "hello").score), ("llm", 0)] ∧
    (ScamDetector.detect defaultScamConfig "hello" none
      OracleOutcome.failure).confidence =
      calculate_weighted_score
        [("keyword", (KeywordDetector.detect defaultScamConfig "hello" none).score),
         ("pattern", (PatternDetector.detect "hello").score), ("llm", 0)]
        [("keyword", defaultScamConfig.keyword_weight),
         ("pattern", defaultScamConfig.pattern_weight),
         ("llm", defaultScamConfig.llm_weight)] ∧
    (OracleOutcome.failure = OracleOutcome.failure →
      ∃ pre, (ScamDetector.detect defaultScamConfig "hello" none
        OracleOutcome.failure).reasoning = pre ++ "LLM: LLM analysis failed") :=
  c7_degradation defaultScamConfig "hello" none OracleOutcome.failure (Or.inl rfl)

/-! ## Claim C8 -/

/-- Claim C8: every entity returned by an `extract` call with the
synthetic-victim role `"victim"` carries confidence `low`, regardless
of the value's shape or the surrounding message text. -/
theorem c8_victim_low (cfg : EntityExtractionConfig)
    (st : List ExtractedEntity) (message : String) (e : ExtractedEntity)
    (hmem : e ∈ (EntityExtractor.extract cfg st message "victim").1) :
    e.confidence = ConfidenceLevel.LOW := by
  have h := mem_entitiesFromMessage_confidence cfg message "victim" e hmem
  rw [h, EntityExtractor._assess_confidence, if_pos rfl]

/-- Claim C8 witness: the UPI entity extracted from `"claim@paytm"`
with the victim role (its membership in the per-call list is checked
by evaluation) has confidence `low`. -/
theorem c8_victim_low_witness :
    ({ entity_type := EntityType.UPI_ID, value := "claim@paytm",
       normalized_value := "claim@paytm", confidence := ConfidenceLevel.LOW,
       context := "claim@paytm", source_message := "claim@paytm" } :
      ExtractedEntity).confidence = ConfidenceLevel.LOW :=
  c8_victim_low defaultEntityConfig [] "claim@paytm" _ (by decide)

/-! ## Claim C9 -/

/-- Claim C9: across all strategy-engine operations, only
`increment_message_count` changes `message_count`, and it increases it
by exactly one — every operation's effect on the counter is
`+ (1 if increment else 0)`, so the counter is monotonically
non-decreasing within a session. -/
theorem c9_message_count (cfg : EngagementLimits)
    (op : StrategyEngine.EngineOp) (st : ConversationState) :
    (StrategyEngine.applyOp cfg op st).message_count =
      st.message_count +
        (if op = StrategyEngine.EngineOp.incrementMessageCount then 1 else 0) ∧
    st.message_count ≤ (StrategyEngine.applyOp cfg op st).message_count := by
  have h : (StrategyEngine.applyOp cfg op st).message_count =
      st.message_count +
        (if op = StrategyEngine.EngineOp.incrementMessageCount then 1 else 0) := by
    cases op with
    | analyzeMessage m =>
      simpa [StrategyEngine.applyOp] using analyze_message_count st m
    | adaptivePrompt m =>
      simpa [StrategyEngine.applyOp] using adaptive_message_count st m
    | _ =>
      simp [StrategyEngine.applyOp, StrategyEngine.get_strategy_guidance,
        StrategyEngine.increment_message_count]
  exact ⟨h, by omega⟩

/-! ## Claim C10 -/

/-- Claim C10: the per-call result list is not deduplicated.  The
message `"98765432109"` holds a single identifier occurrence matched
by both phone regexes (eleven digits satisfy both the punctuated and
the digit-group pattern), so one `extract` call from an empty session
returns two entries with the key (phone_number, "98765432109") while
the running deduplicated set gains exactly one. -/
theorem c10_call_list_not_deduplicated :
    keyCount (EntityExtractor.extract defaultEntityConfig [] "98765432109"
      "scammer").1 EntityType.PHONE_NUMBER "98765432109" = 2 ∧
    keyCount (EntityExtractor.extract defaultEntityConfig [] "98765432109"
      "scammer").2 EntityType.PHONE_NUMBER "98765432109" = 1 := by
  constructor <;> decide
